import Mathlib

/-!
Verification development for the match-record viewer repository
(pages/01_戦績閲覧.py).  The aggregation engine of that page is embedded
shallowly: a pandas DataFrame of normalized match records becomes a
`List MatchRecord`, the boolean column masks become `List.filter`, pandas
`unique`/python `set` become duplicate erasure, and `pd.Series.mean`
becomes rational sum over length.  Per the spec (section 3 and section 9),
records reach the engine normalized, so the string enums 勝ち/負け and
先攻/後攻 are modeled as two-valued inductive types, dates and finish
turns as `Option Nat`.
-/

namespace WarRecord

/-- Seat of the recording player: 先攻 (first) or 後攻 (second). -/
inductive Seat
  | first
  | second
deriving DecidableEq

/-- Result from the recording player's point of view: 勝ち (win) or 負け (loss). -/
inductive GameResult
  | win
  | loss
deriving DecidableEq

/-- One row of the 戦績 table, after normalization (spec section 3).
`date` is a calendar date as an order-preserving ordinal (rendering a date
as a YYYY-MM-DD string is order-preserving, so sorting rendered strings and
sorting ordinals agree); `finish_turn` is absent when the cell was blank. -/
structure MatchRecord where
  season : String
  date : Option Nat
  environment : String
  my_deck : String
  my_deck_type : String
  opponent_deck : String
  opponent_deck_type : String
  first_second : Seat
  result : GameResult
  finish_turn : Option Nat
  memo : String
deriving DecidableEq

/-- Mask result == 勝ち. -/
def isWin (r : MatchRecord) : Bool :=
  match r.result with
  | GameResult.win => true
  | GameResult.loss => false

/-- Mask result == 負け. -/
def isLoss (r : MatchRecord) : Bool :=
  match r.result with
  | GameResult.win => false
  | GameResult.loss => true

/-- Mask first_second == 先攻. -/
def isFirst (r : MatchRecord) : Bool :=
  match r.first_second with
  | Seat.first => true
  | Seat.second => false

/-- Mask first_second == 後攻. -/
def isSecond (r : MatchRecord) : Bool :=
  match r.first_second with
  | Seat.first => false
  | Seat.second => true

/-- SELECT_PLACEHOLDER constant of the page. -/
def SELECT_PLACEHOLDER : String := "--- 選択してください ---"

/-- ALL_TYPES_PLACEHOLDER constant of the page (全タイプ). -/
def ALL_TYPES_PLACEHOLDER : String := "全タイプ"

/-- The eight casings of the three letters n, a, n. -/
def nanCasings : List String :=
  ["nan", "naN", "nAn", "nAN", "Nan", "NaN", "NAn", "NAN"]

/-- The python test `s.lower() == "nan"` holds exactly when `s` is one of the
eight casings of the three letters n, a, n; the check is embedded by that
finite enumeration, which is extensionally exact. -/
def lowerIsNan (s : String) : Bool :=
  nanCasings.contains s

/-- The validity test applied to discovered deck names and types:
non-empty and not a stringified missing value (lower() != "nan"). -/
def validDeckName (d : String) : Bool :=
  !(d == "") && !(lowerIsNan d)

/-- Duplicate erasure keeping the first occurrence, as pandas
`drop_duplicates` / `unique` do; the helper carries the set of already
seen elements. -/
def eraseDupsAux [DecidableEq α] : List α → List α → List α
  | [], _ => []
  | x :: xs, seen =>
    if x ∈ seen then eraseDupsAux xs seen else x :: eraseDupsAux xs (x :: seen)

/-- Duplicate erasure keeping the first occurrence. -/
def eraseDupsKeepFirst [DecidableEq α] (l : List α) : List α :=
  eraseDupsAux l []

theorem mem_eraseDupsAux [DecidableEq α] (l : List α) (a : α) :
    ∀ seen : List α, a ∈ eraseDupsAux l seen ↔ a ∈ l ∧ a ∉ seen := by
  induction l with
  | nil => intro seen; simp [eraseDupsAux]
  | cons x xs ih =>
    intro seen
    by_cases hx : x ∈ seen
    · simp only [eraseDupsAux, if_pos hx, ih seen, List.mem_cons]
      constructor
      · rintro ⟨hm, hs⟩; exact ⟨Or.inr hm, hs⟩
      · rintro ⟨hm | hm, hs⟩
        · exact absurd (hm ▸ hx) hs
        · exact ⟨hm, hs⟩
    · simp only [eraseDupsAux, if_neg hx, List.mem_cons, ih (x :: seen)]
      constructor
      · rintro (rfl | ⟨hm, hs⟩)
        · exact ⟨Or.inl rfl, hx⟩
        · exact ⟨Or.inr hm, fun h => hs (Or.inr h)⟩
      · rintro ⟨rfl | hm, hs⟩
        · exact Or.inl rfl
        · by_cases hax : a = x
          · exact Or.inl hax
          · exact Or.inr ⟨hm, fun h => h.elim hax hs⟩

theorem mem_eraseDupsKeepFirst [DecidableEq α] (l : List α) (a : α) :
    a ∈ eraseDupsKeepFirst l ↔ a ∈ l := by
  simpa [eraseDupsKeepFirst] using mem_eraseDupsAux l a []

theorem nodup_eraseDupsAux [DecidableEq α] (l : List α) :
    ∀ seen : List α, (eraseDupsAux l seen).Nodup := by
  induction l with
  | nil => intro seen; simp [eraseDupsAux]
  | cons x xs ih =>
    intro seen
    by_cases hx : x ∈ seen
    · simpa [eraseDupsAux, if_pos hx] using ih seen
    · simp only [eraseDupsAux, if_neg hx, List.nodup_cons]
      refine ⟨fun hm => ?_, ih (x :: seen)⟩
      exact ((mem_eraseDupsAux xs x (x :: seen)).mp hm).2 (List.mem_cons_self x seen)

theorem nodup_eraseDupsKeepFirst [DecidableEq α] (l : List α) :
    (eraseDupsKeepFirst l).Nodup :=
  nodup_eraseDupsAux l []

/-- Whitespace characters removed by python str.strip(). -/
def isPySpace (c : Char) : Bool :=
  c == ' ' || c == '\t' || c == '\n' || c == '\r' || c == '\x0b' || c == '\x0c'

/-- python str.strip(): drop leading and trailing whitespace. -/
def pyStrip (s : String) : String :=
  String.mk (((s.data.dropWhile isPySpace).reverse.dropWhile isPySpace).reverse)

/-- Code-point lexicographic strict order on character lists, as python
compares strings. -/
def listCharLtB : List Char → List Char → Bool
  | [], [] => false
  | [], _ :: _ => true
  | _ :: _, [] => false
  | c :: cs, d :: ds => if c = d then listCharLtB cs ds else decide (c < d)

/-- python string strict order. -/
def stringLtB (s t : String) : Bool :=
  listCharLtB s.data t.data

/-- python string order (for sorted()). -/
def stringLeB (s t : String) : Bool :=
  stringLtB s t || s == t

/-- python string order as a relation, for sorting. -/
def stringLe (s t : String) : Prop := stringLeB s t = true

instance : DecidableRel stringLe :=
  fun s t => inferInstanceAs (Decidable (stringLeB s t = true))

/-- python order on pairs of strings (tuple comparison), for sorted(). -/
def tupleLeB (p q : String × String) : Bool :=
  if p.1 == q.1 then stringLeB p.2 q.2 else stringLtB p.1 q.1

/-- Pair order as a relation, for sorting. -/
def tupleLe (p q : String × String) : Prop := tupleLeB p q = true

instance : DecidableRel tupleLe :=
  fun p q => inferInstanceAs (Decidable (tupleLeB p q = true))

/-- get_all_analyzable_deck_names: distinct non-blank, non-"nan" deck names
seen in either the my_deck or the opponent_deck column, sorted. -/
def get_all_analyzable_deck_names (df : List MatchRecord) : List String :=
  List.insertionSort stringLe
    (eraseDupsKeepFirst
      (((df.map fun r => r.my_deck) ++ (df.map fun r => r.opponent_deck)).filter validDeckName))

/-- get_all_types_for_archetype: the ALL placeholder followed by the sorted
distinct non-blank, non-"nan" types recorded for the archetype on either
side.  The python guard also returns only the placeholder for a NaN deck
name; names are strings in the normalized model, so that branch folds into
the blank or placeholder test. -/
def get_all_types_for_archetype (df : List MatchRecord) (deckName : String) : List String :=
  if deckName == "" || deckName == SELECT_PLACEHOLDER then
    [ALL_TYPES_PLACEHOLDER]
  else
    ALL_TYPES_PLACEHOLDER ::
      List.insertionSort stringLe
        (eraseDupsKeepFirst
          ((((df.filter fun r => r.my_deck == deckName).map fun r => r.my_deck_type) ++
            ((df.filter fun r => r.opponent_deck == deckName).map fun r => r.opponent_deck_type)).filter
            validDeckName))

/-- Focus selection: archetype name plus either a concrete type or `none`
for the 全タイプ (all types) choice. -/
structure FocusKey where
  name : String
  dtype : Option String
deriving DecidableEq

/-- cond_my_deck_focus: the record row satisfies my_deck == focus and, when a
concrete type is selected, my_deck_type == focus type. -/
def selfMatch (r : MatchRecord) (k : FocusKey) : Bool :=
  match k.dtype with
  | none => r.my_deck == k.name
  | some t => r.my_deck == k.name && r.my_deck_type == t

/-- cond_opponent_deck_focus: opponent_deck == focus and, when a concrete type
is selected, opponent_deck_type == focus type. -/
def oppMatch (r : MatchRecord) (k : FocusKey) : Bool :=
  match k.dtype with
  | none => r.opponent_deck == k.name
  | some t => r.opponent_deck == k.name && r.opponent_deck_type == t

/-- focus_as_my_deck_games. -/
def focus_as_my_deck_games (df : List MatchRecord) (k : FocusKey) : List MatchRecord :=
  df.filter fun r => selfMatch r k

/-- focus_as_opponent_deck_games. -/
def focus_as_opponent_deck_games (df : List MatchRecord) (k : FocusKey) : List MatchRecord :=
  df.filter fun r => oppMatch r k

/-- total_appearances of the focus deck. -/
def total_appearances (df : List MatchRecord) (k : FocusKey) : Nat :=
  (focus_as_my_deck_games df k).length + (focus_as_opponent_deck_games df k).length

/-- wins_when_focus_is_my_deck_df: result == 勝ち rows of the my-side subset. -/
def wins_when_focus_is_my_deck (df : List MatchRecord) (k : FocusKey) : List MatchRecord :=
  (focus_as_my_deck_games df k).filter isWin

/-- wins_when_focus_is_opponent_deck_df: result == 負け rows of the
opponent-side subset (the recorded loss is a win for the focus deck). -/
def wins_when_focus_is_opponent_deck (df : List MatchRecord) (k : FocusKey) : List MatchRecord :=
  (focus_as_opponent_deck_games df k).filter isLoss

/-- total_wins_for_focus_deck. -/
def total_wins_for_focus_deck (df : List MatchRecord) (k : FocusKey) : Nat :=
  (wins_when_focus_is_my_deck df k).length + (wins_when_focus_is_opponent_deck df k).length

/-- total_losses_for_focus_deck = total_appearances - total_wins. -/
def total_losses_for_focus_deck (df : List MatchRecord) (k : FocusKey) : Nat :=
  total_appearances df k - total_wins_for_focus_deck df k

/-- win_rate_for_focus_deck, with the guard of the source (else branch 0.0). -/
def win_rate_for_focus_deck (df : List MatchRecord) (k : FocusKey) : ℚ :=
  if 0 < total_appearances df k then
    (total_wins_for_focus_deck df k : ℚ) / (total_appearances df k : ℚ) * 100
  else 0

/-- win_finish_turns: defined finish turns of the winning games, my-side wins
first then opponent-side wins, blanks dropped. -/
def win_finish_turns (df : List MatchRecord) (k : FocusKey) : List Nat :=
  ((wins_when_focus_is_my_deck df k).filterMap fun r => r.finish_turn) ++
    ((wins_when_focus_is_opponent_deck df k).filterMap fun r => r.finish_turn)

/-- avg_win_finish_turn_val: arithmetic mean of the winning finish turns,
None when the list is empty. -/
def avg_win_finish_turn (df : List MatchRecord) (k : FocusKey) : Option ℚ :=
  let ts := win_finish_turns df k
  if ts.isEmpty then none
  else some ((ts.map fun n => (n : ℚ)).sum / (ts.length : ℚ))

/-- focus_first_my: my-side games where the recording player went 先攻. -/
def focus_first_my (df : List MatchRecord) (k : FocusKey) : List MatchRecord :=
  (focus_as_my_deck_games df k).filter isFirst

/-- focus_first_opp: opponent-side games where the recorded seat is 後攻, so
the focus deck went first. -/
def focus_first_opp (df : List MatchRecord) (k : FocusKey) : List MatchRecord :=
  (focus_as_opponent_deck_games df k).filter isSecond

/-- total_games_focus_first. -/
def total_games_focus_first (df : List MatchRecord) (k : FocusKey) : Nat :=
  (focus_first_my df k).length + (focus_first_opp df k).length

/-- wins_focus_first: my-side first-seat wins plus opponent-side recorded
losses in 後攻 rows. -/
def wins_focus_first (df : List MatchRecord) (k : FocusKey) : Nat :=
  ((focus_first_my df k).filter isWin).length + ((focus_first_opp df k).filter isLoss).length

/-- win_rate_focus_first: None when the focus deck has no first-seat game. -/
def win_rate_focus_first (df : List MatchRecord) (k : FocusKey) : Option ℚ :=
  if 0 < total_games_focus_first df k then
    some ((wins_focus_first df k : ℚ) / (total_games_focus_first df k : ℚ) * 100)
  else none

/-- focus_second_my. -/
def focus_second_my (df : List MatchRecord) (k : FocusKey) : List MatchRecord :=
  (focus_as_my_deck_games df k).filter isSecond

/-- focus_second_opp: recorded 先攻 rows of the opponent-side subset. -/
def focus_second_opp (df : List MatchRecord) (k : FocusKey) : List MatchRecord :=
  (focus_as_opponent_deck_games df k).filter isFirst

/-- total_games_focus_second. -/
def total_games_focus_second (df : List MatchRecord) (k : FocusKey) : Nat :=
  (focus_second_my df k).length + (focus_second_opp df k).length

/-- wins_focus_second. -/
def wins_focus_second (df : List MatchRecord) (k : FocusKey) : Nat :=
  ((focus_second_my df k).filter isWin).length + ((focus_second_opp df k).filter isLoss).length

/-- win_rate_focus_second: None when the focus deck has no second-seat game. -/
def win_rate_focus_second (df : List MatchRecord) (k : FocusKey) : Option ℚ :=
  if 0 < total_games_focus_second df k then
    some ((wins_focus_second df k : ℚ) / (total_games_focus_second df k : ℚ) * 100)
  else none

/-- The 総合パフォーマンス block of the focus analysis. -/
structure FocusOverall where
  appearances : Nat
  wins : Nat
  losses : Nat
  win_rate : ℚ
  avg_win_turn : Option ℚ
  first_games : Nat
  first_wins : Nat
  first_win_rate : Option ℚ
  second_games : Nat
  second_wins : Nat
  second_win_rate : Option ℚ
deriving DecidableEq

/-- The focus report: the page returns early with a no-data warning when
total_appearances == 0, so the overall metrics exist only for a focus key
with at least one appearance. -/
def focusOverall (df : List MatchRecord) (k : FocusKey) : Option FocusOverall :=
  if total_appearances df k = 0 then none
  else
    some
      ⟨total_appearances df k, total_wins_for_focus_deck df k, total_losses_for_focus_deck df k,
        win_rate_for_focus_deck df k, avg_win_finish_turn df k,
        total_games_focus_first df k, wins_focus_first df k, win_rate_focus_first df k,
        total_games_focus_second df k, wins_focus_second df k, win_rate_focus_second df k⟩

/-- opponents_set: the distinct (opponent deck, opponent type) pairs seen
from the focus side, collected from both subsets. -/
def opponents_set (df : List MatchRecord) (k : FocusKey) : List (String × String) :=
  eraseDupsKeepFirst
    (((focus_as_my_deck_games df k).map fun r => (r.opponent_deck, r.opponent_deck_type)) ++
      ((focus_as_opponent_deck_games df k).map fun r => (r.my_deck, r.my_deck_type)))

/-- all_faced_opponents_tuples: the pairs whose deck name is non-blank and
not "nan", sorted. -/
def all_faced_opponents_tuples (df : List MatchRecord) (k : FocusKey) : List (String × String) :=
  List.insertionSort tupleLe
    ((opponents_set df k).filter fun p => !(p.1 == "") && !(lowerIsNan p.1))

/-- case1_games: my-side games against the exact (deck, type) opponent. -/
def case1_games (df : List MatchRecord) (k : FocusKey) (b t : String) : List MatchRecord :=
  (focus_as_my_deck_games df k).filter fun r =>
    r.opponent_deck == b && r.opponent_deck_type == t

/-- case2_games: opponent-side games whose my side is the exact (deck, type)
opponent. -/
def case2_games (df : List MatchRecord) (k : FocusKey) (b t : String) : List MatchRecord :=
  (focus_as_opponent_deck_games df k).filter fun r =>
    r.my_deck == b && r.my_deck_type == t

/-- games_played_count for one specific-type matchup row. -/
def games_played_count (df : List MatchRecord) (k : FocusKey) (b t : String) : Nat :=
  (case1_games df k b t).length + (case2_games df k b t).length

/-- focus_deck_wins_count for one specific-type matchup row: my-side wins
plus opponent-side recorded losses. -/
def focus_deck_wins_count (df : List MatchRecord) (k : FocusKey) (b t : String) : Nat :=
  ((case1_games df k b t).filter isWin).length + ((case2_games df k b t).filter isLoss).length

/-- win rate of one specific-type matchup row (computed under the
games_played_count > 0 guard of the source). -/
def win_rate_vs_opp (df : List MatchRecord) (k : FocusKey) (b t : String) : ℚ :=
  (focus_deck_wins_count df k b t : ℚ) / (games_played_count df k b t : ℚ) * 100

/-- fd_vs_opp_first_games_count: first-seat games of the focus deck in one
specific-type matchup (先攻 my-side rows plus 後攻 opponent-side rows). -/
def fd_first_games (df : List MatchRecord) (k : FocusKey) (b t : String) : Nat :=
  ((case1_games df k b t).filter isFirst).length +
    ((case2_games df k b t).filter isSecond).length

/-- fd_vs_opp_first_wins_count. -/
def fd_first_wins (df : List MatchRecord) (k : FocusKey) (b t : String) : Nat :=
  ((case1_games df k b t).filter fun r => isFirst r && isWin r).length +
    ((case2_games df k b t).filter fun r => isSecond r && isLoss r).length

/-- win_rate_fd_first_vs_opp: None when there is no first-seat game. -/
def win_rate_fd_first_vs_opp (df : List MatchRecord) (k : FocusKey) (b t : String) : Option ℚ :=
  if 0 < fd_first_games df k b t then
    some ((fd_first_wins df k b t : ℚ) / (fd_first_games df k b t : ℚ) * 100)
  else none

/-- fd_vs_opp_second_games_count. -/
def fd_second_games (df : List MatchRecord) (k : FocusKey) (b t : String) : Nat :=
  ((case1_games df k b t).filter isSecond).length +
    ((case2_games df k b t).filter isFirst).length

/-- fd_vs_opp_second_wins_count. -/
def fd_second_wins (df : List MatchRecord) (k : FocusKey) (b t : String) : Nat :=
  ((case1_games df k b t).filter fun r => isSecond r && isWin r).length +
    ((case2_games df k b t).filter fun r => isFirst r && isLoss r).length

/-- win_rate_fd_second_vs_opp: None when there is no second-seat game. -/
def win_rate_fd_second_vs_opp (df : List MatchRecord) (k : FocusKey) (b t : String) : Option ℚ :=
  if 0 < fd_second_games df k b t then
    some ((fd_second_wins df k b t : ℚ) / (fd_second_games df k b t : ℚ) * 100)
  else none

/-- The specific-type tier of the matchup table, identified by its
(opponent deck, opponent type) keys: a row is emitted per faced tuple,
under the games_played_count > 0 guard of the source. -/
def matchup_rows (df : List MatchRecord) (k : FocusKey) : List (String × String) :=
  (all_faced_opponents_tuples df k).filter fun p => 0 < games_played_count df k p.1 p.2

/-- The distinct opponent deck names of the specific-type tier, in first
occurrence order (pandas unique on the 対戦相手デッキ column). -/
def unique_agg_names (df : List MatchRecord) (k : FocusKey) : List String :=
  eraseDupsKeepFirst ((matchup_rows df k).map fun p => p.1)

/-- case1_agg_games_total: my-side games against the opponent archetype,
all of its types pooled. -/
def case1_agg_games_total (df : List MatchRecord) (k : FocusKey) (b : String) : List MatchRecord :=
  (focus_as_my_deck_games df k).filter fun r => r.opponent_deck == b

/-- case2_agg_games_total. -/
def case2_agg_games_total (df : List MatchRecord) (k : FocusKey) (b : String) : List MatchRecord :=
  (focus_as_opponent_deck_games df k).filter fun r => r.my_deck == b

/-- total_games_vs_opp_deck_agg: appearances of the pooled (全タイプ) row. -/
def total_games_vs_opp_deck_agg (df : List MatchRecord) (k : FocusKey) (b : String) : Nat :=
  (case1_agg_games_total df k b).length + (case2_agg_games_total df k b).length

/-- total_focus_wins_vs_opp_deck_agg. -/
def total_focus_wins_vs_opp_deck_agg (df : List MatchRecord) (k : FocusKey) (b : String) : Nat :=
  ((case1_agg_games_total df k b).filter isWin).length +
    ((case2_agg_games_total df k b).filter isLoss).length

/-- win_rate_vs_opp_deck_agg, with the guard of the source (else branch 0.0). -/
def win_rate_vs_opp_deck_agg (df : List MatchRecord) (k : FocusKey) (b : String) : ℚ :=
  if 0 < total_games_vs_opp_deck_agg df k b then
    (total_focus_wins_vs_opp_deck_agg df k b : ℚ) / (total_games_vs_opp_deck_agg df k b : ℚ) * 100
  else 0

/-- fd_first_games_agg_total_count. -/
def fd_first_games_agg (df : List MatchRecord) (k : FocusKey) (b : String) : Nat :=
  ((case1_agg_games_total df k b).filter isFirst).length +
    ((case2_agg_games_total df k b).filter isSecond).length

/-- fd_first_wins_agg_total. -/
def fd_first_wins_agg (df : List MatchRecord) (k : FocusKey) (b : String) : Nat :=
  ((case1_agg_games_total df k b).filter fun r => isFirst r && isWin r).length +
    ((case2_agg_games_total df k b).filter fun r => isSecond r && isLoss r).length

/-- win_rate_fd_first_agg_total: None when there is no pooled first-seat game. -/
def win_rate_fd_first_agg (df : List MatchRecord) (k : FocusKey) (b : String) : Option ℚ :=
  if 0 < fd_first_games_agg df k b then
    some ((fd_first_wins_agg df k b : ℚ) / (fd_first_games_agg df k b : ℚ) * 100)
  else none

/-- fd_second_games_agg_total_count. -/
def fd_second_games_agg (df : List MatchRecord) (k : FocusKey) (b : String) : Nat :=
  ((case1_agg_games_total df k b).filter isSecond).length +
    ((case2_agg_games_total df k b).filter isFirst).length

/-- fd_second_wins_agg_total. -/
def fd_second_wins_agg (df : List MatchRecord) (k : FocusKey) (b : String) : Nat :=
  ((case1_agg_games_total df k b).filter fun r => isSecond r && isWin r).length +
    ((case2_agg_games_total df k b).filter fun r => isFirst r && isLoss r).length

/-- win_rate_fd_second_agg_total: None when there is no pooled second-seat game. -/
def win_rate_fd_second_agg (df : List MatchRecord) (k : FocusKey) (b : String) : Option ℚ :=
  if 0 < fd_second_games_agg df k b then
    some ((fd_second_wins_agg df k b : ℚ) / (fd_second_games_agg df k b : ℚ) * 100)
  else none

/-- The pooled (全タイプ) tier of the matchup table, identified by opponent
deck name, emitted under the total_games_vs_opp_deck_agg > 0 guard. -/
def agg_rows (df : List MatchRecord) (k : FocusKey) : List String :=
  (unique_agg_names df k).filter fun b => 0 < total_games_vs_opp_deck_agg df k b

/-- The memo filter of the page: memo.strip() != "" and memo.lower() != "nan". -/
def memoKeep (r : MatchRecord) : Bool :=
  !(pyStrip r.memo == "") && !(lowerIsNan r.memo)

/-- memos_when_my_deck. -/
def memos_when_my_deck (df : List MatchRecord) (k : FocusKey) : List MatchRecord :=
  (focus_as_my_deck_games df k).filter memoKeep

/-- memos_when_opponent_deck. -/
def memos_when_opponent_deck (df : List MatchRecord) (k : FocusKey) : List MatchRecord :=
  (focus_as_opponent_deck_games df k).filter memoKeep

/-- all_memo_games: concat of the two memo subsets, then pandas
drop_duplicates, which removes rows equal in every field and keeps the
first occurrence. -/
def all_memo_games (df : List MatchRecord) (k : FocusKey) : List MatchRecord :=
  eraseDupsKeepFirst (memos_when_my_deck df k ++ memos_when_opponent_deck df k)

/-- Date order for the descending memo sort: defined dates compare
descending, an absent date sorts after every defined one (pandas
na_position last), two absent dates tie.  Rendering dates as YYYY-MM-DD
strings before sorting is order-preserving, so sorting the rendered column
and sorting the date ordinals agree. -/
def dateDescLeB (a b : MatchRecord) : Bool :=
  match a.date, b.date with
  | some d1, some d2 => d2 ≤ d1
  | some _, none => true
  | none, some _ => false
  | none, none => true

/-- The date order as a relation, for sorting. -/
def dateDescLe (a b : MatchRecord) : Prop := dateDescLeB a b = true

instance : DecidableRel dateDescLe :=
  fun a b => inferInstanceAs (Decidable (dateDescLeB a b = true))

instance : IsTotal MatchRecord dateDescLe := by
  constructor
  intro a b
  unfold dateDescLe dateDescLeB
  rcases a.date with _ | d1 <;> rcases b.date with _ | d2 <;> (simp; try omega)

instance : IsTrans MatchRecord dateDescLe := by
  constructor
  intro a b c
  unfold dateDescLe dateDescLeB
  rcases a.date with _ | d1 <;> rcases b.date with _ | d2 <;> rcases c.date with _ | d3 <;>
    (simp; try omega)

/-- df_memo_display: the memo-tagged record list, sorted by date
descending with undated rows trailing. -/
def df_memo_display (df : List MatchRecord) (k : FocusKey) : List MatchRecord :=
  List.insertionSort dateDescLe (all_memo_games df k)

/-- games_as_my_deck_df of the overview loop. -/
def games_as_my_deck (df : List MatchRecord) (name : String) : List MatchRecord :=
  df.filter fun r => r.my_deck == name

/-- games_as_opponent_deck_df of the overview loop. -/
def games_as_opponent_deck (df : List MatchRecord) (name : String) : List MatchRecord :=
  df.filter fun r => r.opponent_deck == name

/-- total_appearances_deck_a. -/
def total_appearances_deck_a (df : List MatchRecord) (name : String) : Nat :=
  (games_as_my_deck df name).length + (games_as_opponent_deck df name).length

/-- total_wins_deck_a: my-side 勝ち rows plus opponent-side 負け rows. -/
def total_wins_deck_a (df : List MatchRecord) (name : String) : Nat :=
  ((games_as_my_deck df name).filter isWin).length +
    ((games_as_opponent_deck df name).filter isLoss).length

/-- total_losses_deck_a. -/
def total_losses_deck_a (df : List MatchRecord) (name : String) : Nat :=
  total_appearances_deck_a df name - total_wins_deck_a df name

/-- simple_overall_win_rate_deck_a, with the guard of the source (else 0.0). -/
def simple_overall_win_rate_deck_a (df : List MatchRecord) (name : String) : ℚ :=
  if 0 < total_appearances_deck_a df name then
    (total_wins_deck_a df name : ℚ) / (total_appearances_deck_a df name : ℚ) * 100
  else 0

/-- total_games_deck_a_first: my-side 先攻 rows plus opponent-side 後攻 rows. -/
def total_games_deck_a_first (df : List MatchRecord) (name : String) : Nat :=
  ((games_as_my_deck df name).filter isFirst).length +
    ((games_as_opponent_deck df name).filter isSecond).length

/-- wins_deck_a_first. -/
def wins_deck_a_first (df : List MatchRecord) (name : String) : Nat :=
  ((games_as_my_deck df name).filter fun r => isFirst r && isWin r).length +
    ((games_as_opponent_deck df name).filter fun r => isSecond r && isLoss r).length

/-- win_rate_deck_a_first: None when the archetype has no first-seat game. -/
def win_rate_deck_a_first (df : List MatchRecord) (name : String) : Option ℚ :=
  if 0 < total_games_deck_a_first df name then
    some ((wins_deck_a_first df name : ℚ) / (total_games_deck_a_first df name : ℚ) * 100)
  else none

/-- total_games_deck_a_second. -/
def total_games_deck_a_second (df : List MatchRecord) (name : String) : Nat :=
  ((games_as_my_deck df name).filter isSecond).length +
    ((games_as_opponent_deck df name).filter isFirst).length

/-- wins_deck_a_second. -/
def wins_deck_a_second (df : List MatchRecord) (name : String) : Nat :=
  ((games_as_my_deck df name).filter fun r => isSecond r && isWin r).length +
    ((games_as_opponent_deck df name).filter fun r => isFirst r && isLoss r).length

/-- win_rate_deck_a_second: None when the archetype has no second-seat game. -/
def win_rate_deck_a_second (df : List MatchRecord) (name : String) : Option ℚ :=
  if 0 < total_games_deck_a_second df name then
    some ((wins_deck_a_second df name : ℚ) / (total_games_deck_a_second df name : ℚ) * 100)
  else none

/-- games_involving_deck_a: the archetype appears on either side. -/
def games_involving_deck_a (df : List MatchRecord) (name : String) : List MatchRecord :=
  df.filter fun r => r.my_deck == name || r.opponent_deck == name

/-- opponent_for_this_game: the archetype on the other side of the row,
read through the if / elif of the source. -/
def opponent_for_this_game (name : String) (r : MatchRecord) : Option String :=
  if r.my_deck == name then some r.opponent_deck
  else if r.opponent_deck == name then some r.my_deck
  else none

/-- unique_opponents_faced_by_deck_a: distinct opposing archetypes, keeping
only a truthy name different from the focus archetype whose stripped form is
non-empty and not "nan" (the conjuncts of the source in order). -/
def unique_opponents_faced_by_deck_a (df : List MatchRecord) (name : String) : List String :=
  eraseDupsKeepFirst
    (((games_involving_deck_a df name).filterMap (opponent_for_this_game name)).filter
      fun o => !(o == "") && !(o == name) && !(pyStrip o == "") && !(lowerIsNan (pyStrip o)))

/-- a_vs_opp_my_games. -/
def a_vs_opp_my_games (df : List MatchRecord) (name b : String) : List MatchRecord :=
  (games_involving_deck_a df name).filter fun r => r.my_deck == name && r.opponent_deck == b

/-- a_vs_opp_opponent_games. -/
def a_vs_opp_opponent_games (df : List MatchRecord) (name b : String) : List MatchRecord :=
  (games_involving_deck_a df name).filter fun r => r.opponent_deck == name && r.my_deck == b

/-- total_games_vs_specific_opponent. -/
def total_games_vs_specific_opponent (df : List MatchRecord) (name b : String) : Nat :=
  (a_vs_opp_my_games df name b).length + (a_vs_opp_opponent_games df name b).length

/-- total_wins_for_a_vs_specific_opponent: my-side wins plus opponent-side
recorded losses. -/
def total_wins_for_a_vs_specific_opponent (df : List MatchRecord) (name b : String) : Nat :=
  ((a_vs_opp_my_games df name b).filter isWin).length +
    ((a_vs_opp_opponent_games df name b).filter isLoss).length

/-- matchup_win_rates_for_deck_a: one per-opponent rate per enumerated
opponent, appended under the total > 0 guard of the source.  The python
loop walks a set, whose order is unspecified; the mean consumed from this
list is order independent. -/
def matchup_win_rates_for_deck_a (df : List MatchRecord) (name : String) : List ℚ :=
  (unique_opponents_faced_by_deck_a df name).filterMap fun b =>
    if 0 < total_games_vs_specific_opponent df name b then
      some ((total_wins_for_a_vs_specific_opponent df name b : ℚ) /
        (total_games_vs_specific_opponent df name b : ℚ) * 100)
    else none

/-- avg_matchup_wr_deck_a: pd.Series(...).mean() when the list is
non-empty, None otherwise. -/
def avg_matchup_wr_deck_a (df : List MatchRecord) (name : String) : Option ℚ :=
  let rates := matchup_win_rates_for_deck_a df name
  if rates.isEmpty then none
  else some (rates.sum / (rates.length : ℚ))

/-- The rows of the 全デッキアーキタイプ overview table, identified by deck
name: one row per discovered archetype, appended under the
total_appearances_deck_a > 0 guard of the source. -/
def general_performance_rows (df : List MatchRecord) : List String :=
  (get_all_analyzable_deck_names df).filter fun n => 0 < total_appearances_deck_a df n

/-!  Spec-side definitions.  These follow the wording of the spec (sections
4.4 and 4.6) rather than the source, and exist only to be compared with
the source-derived definitions above. -/

/-- Spec wording, games of the A-vs-B pairing: records where A appears on
one side and B on the other. -/
def pair_games (df : List MatchRecord) (a b : String) : List MatchRecord :=
  df.filter fun r =>
    (r.my_deck == a && r.opponent_deck == b) || (r.my_deck == b && r.opponent_deck == a)

/-- Spec wording, wins of A inside the A-vs-B pairing: my-side wins plus
opponent-side recorded losses. -/
def pair_wins_for (df : List MatchRecord) (a b : String) : Nat :=
  ((df.filter fun r => r.my_deck == a && r.opponent_deck == b).filter isWin).length +
    ((df.filter fun r => r.my_deck == b && r.opponent_deck == a).filter isLoss).length

/-- Spec wording, win rate of A restricted to the A-vs-B pairing. -/
def pair_win_rate (df : List MatchRecord) (a b : String) : ℚ :=
  (pair_wins_for df a b : ℚ) / ((pair_games df a b).length : ℚ) * 100

/-- The opponent-name validity conjuncts the overview enumeration applies,
in source order. -/
def validOverviewOpponent (name b : String) : Bool :=
  !(b == "") && !(b == name) && !(pyStrip b == "") && !(lowerIsNan (pyStrip b))

/-- Every deck name occurring in the record set, my side and opponent side. -/
def deckNamesFinset (df : List MatchRecord) : Finset String :=
  ((df.map fun r => r.my_deck) ++ (df.map fun r => r.opponent_deck)).toFinset

/-- Spec wording, the set of distinct opposing archetypes the focus
archetype has faced at least once.  Blank and stringified-"nan" names are
placeholders for missing data, not archetypes (see the blank-exclusion
invariant), so they carry the same validity test as the enumeration. -/
def spec_opponents (df : List MatchRecord) (a : String) : Finset String :=
  (deckNamesFinset df).filter fun b =>
    validOverviewOpponent a b = true ∧ 0 < (pair_games df a b).length

/-- Spec wording, average matchup win rate: the unweighted mean over the
distinct opposing archetypes of the per-pairing win rates, no data when
there is no opponent. -/
def spec_avg_matchup_win_rate (df : List MatchRecord) (a : String) : Option ℚ :=
  if spec_opponents df a = ∅ then none
  else some ((spec_opponents df a).sum (fun b => pair_win_rate df a b) /
    ((spec_opponents df a).card : ℚ))

/-- Spec wording (section 4.6): the union by record identity of the AS_SELF
and AS_OPPONENT subsets restricted by the memo filter.  The two subsets are
row selections of the same table, so the identity-respecting union is the
plain filter: each original row appears exactly as often as it occurs in
the table. -/
def spec_memo_records (df : List MatchRecord) (k : FocusKey) : List MatchRecord :=
  df.filter fun r => (selfMatch r k || oppMatch r k) && memoKeep r

/-- Spec wording: the identity-deduplicated memo union sorted by date
descending with undated rows trailing. -/
def spec_memo_display (df : List MatchRecord) (k : FocusKey) : List MatchRecord :=
  List.insertionSort dateDescLe (spec_memo_records df k)

/-- Records appearing together in exactly N rows, claim C6 wording: A as
my_deck with B as opponent_deck or the reverse. -/
def pair_record_count (df : List MatchRecord) (a b : String) : Nat :=
  (df.filter fun r => r.my_deck == a && r.opponent_deck == b).length +
    (df.filter fun r => r.my_deck == b && r.opponent_deck == a).length

/-- The per-opponent types listed in the specific-type tier for one
opponent archetype. -/
def types_of_opponent (df : List MatchRecord) (k : FocusKey) (b : String) : List String :=
  ((matchup_rows df k).filter fun p => p.1 == b).map fun p => p.2

/-!  Concrete records used by closed witness and counterexample theorems. -/

/-- Record 1 of the concrete two-record scenario. -/
def rAlpha : MatchRecord :=
  ⟨"", none, "", "Alpha", "Red", "Beta", "Blue", Seat.first, GameResult.win, some 5, ""⟩

/-- Record 2 of the concrete two-record scenario. -/
def rBeta : MatchRecord :=
  ⟨"", none, "", "Beta", "Blue", "Alpha", "Red", Seat.second, GameResult.loss, some 7, ""⟩

/-- The two-record input of the concrete scenario. -/
def dfC5 : List MatchRecord := [rAlpha, rBeta]

/-- Focus key (Alpha, 全タイプ). -/
def kAlphaAll : FocusKey := ⟨"Alpha", none⟩

/-- A true mirror record: the same archetype and type on both sides. -/
def rMirror : MatchRecord :=
  ⟨"", none, "", "A", "X", "A", "X", Seat.first, GameResult.win, some 3, ""⟩

/-- Focus key (A, 全タイプ). -/
def kA : FocusKey := ⟨"A", none⟩

/-- A memo-carrying record with my side A. -/
def rMemoA : MatchRecord :=
  ⟨"", none, "", "A", "", "B", "", Seat.first, GameResult.win, none, "good"⟩

/-- Two distinct table rows with identical field values, both carrying a
memo. -/
def dfMemoDup : List MatchRecord := [rMemoA, rMemoA]

/-!  Generic counting and membership lemmas. -/

/-- Every game is a win or a loss, exclusively. -/
theorem length_eq_wins_add_losses (l : List MatchRecord) :
    l.length = (l.filter isWin).length + (l.filter isLoss).length := by
  induction l with
  | nil => rfl
  | cons r t ih =>
    cases hr : r.result <;>
      simp [List.filter_cons, isWin, isLoss, hr, List.length_cons, ih] <;> omega

/-- A filter over a disjunction of mutually exclusive masks splits the count. -/
theorem length_filter_or_disjoint (l : List α) (p q : α → Bool)
    (h : ∀ x ∈ l, ¬(p x = true ∧ q x = true)) :
    (l.filter fun x => p x || q x).length = (l.filter p).length + (l.filter q).length := by
  induction l with
  | nil => rfl
  | cons x xs ih =>
    have hx := h x (List.mem_cons_self x xs)
    have ihs := ih fun y hy => h y (List.mem_cons_of_mem x hy)
    cases hp : p x <;> cases hq : q x
    · simp [List.filter_cons, hp, hq, ihs]
    · simp [List.filter_cons, hp, hq, ihs]; omega
    · simp [List.filter_cons, hp, hq, ihs]; omega
    · exact absurd ⟨hp, hq⟩ hx

/-- Sum of a pointwise addition of two counts. -/
theorem sum_map_add_nat (l : List β) (f g : β → Nat) :
    (l.map fun t => f t + g t).sum = (l.map f).sum + (l.map g).sum := by
  induction l with
  | nil => rfl
  | cons x xs ih => simp only [List.map_cons, List.sum_cons, ih]; omega

/-- Summing the indicator of one element of a duplicate-free list gives 1. -/
theorem sum_indicator_of_nodup [DecidableEq β] (ts : List β) (b : β)
    (hnd : ts.Nodup) (hb : b ∈ ts) :
    (ts.map fun t => if b = t then (1 : Nat) else 0).sum = 1 := by
  induction ts with
  | nil => cases hb
  | cons t ts ih =>
    rcases List.mem_cons.mp hb with rfl | hmem
    · have hz : (ts.map fun t2 => if b = t2 then (1 : Nat) else 0).sum = 0 := by
        apply List.sum_eq_zero
        intro x hx
        rcases List.mem_map.mp hx with ⟨t2, ht2, rfl⟩
        have hne : b ≠ t2 := fun h => (List.nodup_cons.mp hnd).1 (h ▸ ht2)
        simp [hne]
      simp [hz]
    · have hbt : b ≠ t := by
        intro h
        exact (List.nodup_cons.mp hnd).1 (h ▸ hmem)
      simp [hbt, ih (List.nodup_cons.mp hnd).2 hmem]

/-- Partitioning a count by a key function: when every element maps into a
duplicate-free key list, the length is the sum of the per-key filter
lengths. -/
theorem length_eq_sum_filter_by_key [DecidableEq β] (l : List α) (g : α → β) (ts : List β)
    (hnd : ts.Nodup) (hmem : ∀ x ∈ l, g x ∈ ts) :
    l.length = (ts.map fun t => (l.filter fun x => g x == t).length).sum := by
  induction l with
  | nil =>
    simp only [List.length_nil]
    symm
    apply List.sum_eq_zero
    intro x hx
    rcases List.mem_map.mp hx with ⟨t, _, rfl⟩
    simp
  | cons x xs ih =>
    have hx : g x ∈ ts := hmem x (List.mem_cons_self x xs)
    have ihs := ih fun y hy => hmem y (List.mem_cons_of_mem x hy)
    have hterm : ∀ t ∈ ts, ((x :: xs).filter fun y => g y == t).length
        = (xs.filter fun y => g y == t).length + (if g x = t then 1 else 0) := by
      intro t _
      by_cases h : g x = t
      · simp [List.filter_cons, h]
      · simp [List.filter_cons, h]
    have hmap : (ts.map fun t => ((x :: xs).filter fun y => g y == t).length)
        = ts.map fun t =>
            (xs.filter fun y => g y == t).length + (if g x = t then 1 else 0) :=
      List.map_congr_left hterm
    rw [hmap, sum_map_add_nat, ← ihs, sum_indicator_of_nodup ts (g x) hnd hx]
    simp [List.length_cons]

/-- A filterMap that always succeeds is a map. -/
theorem filterMap_eq_map_of_some (l : List α) (f : α → Option β) (g : α → β)
    (h : ∀ x ∈ l, f x = some (g x)) : l.filterMap f = l.map g := by
  induction l with
  | nil => rfl
  | cons x xs ih =>
    rw [List.filterMap_cons, h x (List.mem_cons_self x xs),
      ih fun y hy => h y (List.mem_cons_of_mem x hy)]
    rfl

/-- Projecting the second components of duplicate-free pairs that share
their first component keeps them duplicate-free. -/
theorem nodup_map_snd_of_fst_eq (l : List (String × String)) (b : String)
    (hnd : l.Nodup) (hf : ∀ p ∈ l, p.1 = b) : (l.map fun p => p.2).Nodup := by
  induction l with
  | nil => simp
  | cons p ps ih =>
    rcases List.nodup_cons.mp hnd with ⟨hp, hps⟩
    simp only [List.map_cons, List.nodup_cons]
    refine ⟨fun hmem => ?_, ih hps fun q hq => hf q (List.mem_cons_of_mem p hq)⟩
    rcases List.mem_map.mp hmem with ⟨q, hq, hqe⟩
    have hqp : q = p :=
      Prod.ext ((hf q (List.mem_cons_of_mem p hq)).trans
        (hf p (List.mem_cons_self p ps)).symm) hqe
    exact hp (hqp ▸ hq)

/-- A string whose python lower() form is "nan" has no surrounding
whitespace, so stripping leaves it unchanged. -/
theorem pyStrip_of_lowerIsNan (s : String) (h : lowerIsNan s = true) : pyStrip s = s := by
  have hmem : s ∈ nanCasings := by
    have := h
    unfold lowerIsNan at this
    exact List.elem_iff.mp this
  simp only [nanCasings, List.mem_cons, List.not_mem_nil, or_false] at hmem
  rcases hmem with rfl | rfl | rfl | rfl | rfl | rfl | rfl | rfl <;> decide

/-!  Claim theorems. -/

/-- C1: Role-flip correctness.  A record whose opponent side matches the
archetype key joins the AS_OPPONENT subset of that key, and it contributes
to the key with the effective result being the negation of the recorded
result (a recorded 負け counts as a win) and the effective seat being the
negation of the recorded seat (a recorded 先攻 counts as a second-seat
game); the same holds in the type-blind overview aggregation. -/
theorem role_flip_correctness (df : List MatchRecord) (r : MatchRecord) (k : FocusKey)
    (name : String) (hk : oppMatch r k = true) (hn : r.opponent_deck = name) :
    (focus_as_opponent_deck_games (r :: df) k).length
        = (focus_as_opponent_deck_games df k).length + 1 ∧
    (wins_when_focus_is_opponent_deck (r :: df) k).length
        = (wins_when_focus_is_opponent_deck df k).length
            + (if r.result = GameResult.loss then 1 else 0) ∧
    (focus_first_opp (r :: df) k).length
        = (focus_first_opp df k).length
            + (if r.first_second = Seat.second then 1 else 0) ∧
    (focus_second_opp (r :: df) k).length
        = (focus_second_opp df k).length
            + (if r.first_second = Seat.first then 1 else 0) ∧
    (games_as_opponent_deck (r :: df) name).length
        = (games_as_opponent_deck df name).length + 1 ∧
    ((games_as_opponent_deck (r :: df) name).filter isLoss).length
        = ((games_as_opponent_deck df name).filter isLoss).length
            + (if r.result = GameResult.loss then 1 else 0) ∧
    ((games_as_opponent_deck (r :: df) name).filter isSecond).length
        = ((games_as_opponent_deck df name).filter isSecond).length
            + (if r.first_second = Seat.second then 1 else 0) := by
  have hcons : focus_as_opponent_deck_games (r :: df) k
      = r :: focus_as_opponent_deck_games df k := by
    simp [focus_as_opponent_deck_games, List.filter_cons, hk]
  have hgcons : games_as_opponent_deck (r :: df) name
      = r :: games_as_opponent_deck df name := by
    simp [games_as_opponent_deck, List.filter_cons, hn]
  refine ⟨?_, ?_, ?_, ?_, ?_, ?_, ?_⟩
  · rw [hcons]; rfl
  · rw [wins_when_focus_is_opponent_deck, wins_when_focus_is_opponent_deck, hcons,
      List.filter_cons]
    cases hr : r.result <;> simp [isLoss, hr]
  · rw [focus_first_opp, focus_first_opp, hcons, List.filter_cons]
    cases hs : r.first_second <;> simp [isSecond, hs]
  · rw [focus_second_opp, focus_second_opp, hcons, List.filter_cons]
    cases hs : r.first_second <;> simp [isFirst, hs]
  · rw [hgcons]; rfl
  · rw [hgcons, List.filter_cons]
    cases hr : r.result <;> simp [isLoss, hr]
  · rw [hgcons, List.filter_cons]
    cases hs : r.first_second <;> simp [isSecond, hs]

/-- Closed instance of the role-flip theorem at the second record of the
concrete scenario. -/
theorem role_flip_correctness_witness :
    oppMatch rBeta kAlphaAll = true ∧ rBeta.opponent_deck = "Alpha" ∧
    ((focus_as_opponent_deck_games (rBeta :: []) kAlphaAll).length
        = (focus_as_opponent_deck_games [] kAlphaAll).length + 1 ∧
      (wins_when_focus_is_opponent_deck (rBeta :: []) kAlphaAll).length
        = (wins_when_focus_is_opponent_deck [] kAlphaAll).length
            + (if rBeta.result = GameResult.loss then 1 else 0) ∧
      (focus_first_opp (rBeta :: []) kAlphaAll).length
        = (focus_first_opp [] kAlphaAll).length
            + (if rBeta.first_second = Seat.second then 1 else 0) ∧
      (focus_second_opp (rBeta :: []) kAlphaAll).length
        = (focus_second_opp [] kAlphaAll).length
            + (if rBeta.first_second = Seat.first then 1 else 0) ∧
      (games_as_opponent_deck (rBeta :: []) "Alpha").length
        = (games_as_opponent_deck [] "Alpha").length + 1 ∧
      ((games_as_opponent_deck (rBeta :: []) "Alpha").filter isLoss).length
        = ((games_as_opponent_deck [] "Alpha").filter isLoss).length
            + (if rBeta.result = GameResult.loss then 1 else 0) ∧
      ((games_as_opponent_deck (rBeta :: []) "Alpha").filter isSecond).length
        = ((games_as_opponent_deck [] "Alpha").filter isSecond).length
            + (if rBeta.first_second = Seat.second then 1 else 0)) :=
  ⟨by decide, by decide,
    role_flip_correctness [] rBeta kAlphaAll "Alpha" (by decide) (by decide)⟩

/-- C2 counterexample: a true mirror record (same archetype and identical
type on both sides) is counted twice, not once, in the appearance total of
the focus key it matches. -/
theorem mirror_counted_twice_counterexample :
    rMirror.my_deck = rMirror.opponent_deck ∧
    rMirror.my_deck_type = rMirror.opponent_deck_type ∧
    selfMatch rMirror kA = true ∧ oppMatch rMirror kA = true ∧
    total_appearances [rMirror] kA = 2 ∧
    ¬ total_appearances [rMirror] kA = 1 := by decide

/-- C2 amended: a record matching the focus key on both sides joins both
the AS_SELF and the AS_OPPONENT subsets and therefore contributes twice,
not once, to the appearance total of that key. -/
theorem mirror_counted_twice (df : List MatchRecord) (r : MatchRecord) (k : FocusKey)
    (hs : selfMatch r k = true) (ho : oppMatch r k = true) :
    total_appearances (r :: df) k = total_appearances df k + 2 := by
  have h1 : focus_as_my_deck_games (r :: df) k = r :: focus_as_my_deck_games df k := by
    simp [focus_as_my_deck_games, List.filter_cons, hs]
  have h2 : focus_as_opponent_deck_games (r :: df) k
      = r :: focus_as_opponent_deck_games df k := by
    simp [focus_as_opponent_deck_games, List.filter_cons, ho]
  rw [total_appearances, total_appearances, h1, h2]
  simp [List.length_cons]
  omega

/-- Closed instance of the amended mirror-count theorem. -/
theorem mirror_counted_twice_witness :
    selfMatch rMirror kA = true ∧ oppMatch rMirror kA = true ∧
    total_appearances (rMirror :: []) kA = total_appearances [] kA + 2 :=
  ⟨by decide, by decide, mirror_counted_twice [] rMirror kA (by decide) (by decide)⟩

/-- C5 counterexample: in the two-record scenario the claim announces a
first-seat win rate computed over 1 first-seat game out of 1; the engine
instead counts 2 first-seat games with 2 first-seat wins for (Alpha,
全タイプ), because record 2 carries a recorded 後攻 seat and the seat flip
of the role-normalization makes it a first-seat game of Alpha. -/
theorem concrete_scenario_seat_counterexample :
    total_games_focus_first dfC5 kAlphaAll = 2 ∧
    ¬ total_games_focus_first dfC5 kAlphaAll = 1 ∧
    wins_focus_first dfC5 kAlphaAll = 2 ∧
    ¬ wins_focus_first dfC5 kAlphaAll = 1 := by decide

/-- C5 amended: the concrete two-record scenario.  With records Alpha(Red)
vs Beta(Blue), 先攻, 勝ち, turn 5 and Beta(Blue) vs Alpha(Red), 後攻, 負け,
turn 7, the focus report for (Alpha, 全タイプ) shows 2 appearances, 2 wins,
0 losses, a 100 percent first-seat rate computed over 2 first-seat games
with 2 first-seat wins (the seat flip turns the recorded 後攻 of record 2
into an Alpha first-seat game), mean winning finish turn 6, and exactly one
specific-type matchup row, Beta (Blue), with 2 games and 2 wins. -/
theorem concrete_two_record_scenario :
    total_appearances dfC5 kAlphaAll = 2 ∧
    total_wins_for_focus_deck dfC5 kAlphaAll = 2 ∧
    total_losses_for_focus_deck dfC5 kAlphaAll = 0 ∧
    total_games_focus_first dfC5 kAlphaAll = 2 ∧
    wins_focus_first dfC5 kAlphaAll = 2 ∧
    win_rate_focus_first dfC5 kAlphaAll = some 100 ∧
    avg_win_finish_turn dfC5 kAlphaAll = some 6 ∧
    matchup_rows dfC5 kAlphaAll = [("Beta", "Blue")] ∧
    games_played_count dfC5 kAlphaAll "Beta" "Blue" = 2 ∧
    focus_deck_wins_count dfC5 kAlphaAll "Beta" "Blue" = 2 := by
  refine ⟨by decide, by decide, by decide, by decide, by decide, ?_, ?_,
    by decide, by decide, by decide⟩
  · have ht : total_games_focus_first dfC5 kAlphaAll = 2 := by decide
    have hw : wins_focus_first dfC5 kAlphaAll = 2 := by decide
    rw [win_rate_focus_first, ht, hw]
    norm_num
  · have hts : win_finish_turns dfC5 kAlphaAll = [5, 7] := by decide
    rw [avg_win_finish_turn]
    rw [hts]
    norm_num

/-- The AS_SELF filter restricted to one pooled opponent, normalized to a
single filter of the table (focus key type-blind). -/
theorem case1_agg_eq (df : List MatchRecord) (a b : String) :
    case1_agg_games_total df ⟨a, none⟩ b
      = df.filter fun r => r.my_deck == a && r.opponent_deck == b := by
  rw [case1_agg_games_total, focus_as_my_deck_games, List.filter_filter]
  apply List.filter_congr
  intro x _
  show (x.opponent_deck == b && selfMatch x ⟨a, none⟩)
      = (x.my_deck == a && x.opponent_deck == b)
  simp only [selfMatch]
  exact Bool.and_comm _ _

/-- The AS_OPPONENT filter restricted to one pooled opponent, normalized to
a single filter of the table (focus key type-blind). -/
theorem case2_agg_eq (df : List MatchRecord) (a b : String) :
    case2_agg_games_total df ⟨a, none⟩ b
      = df.filter fun r => r.my_deck == b && r.opponent_deck == a := by
  rw [case2_agg_games_total, focus_as_opponent_deck_games, List.filter_filter]
  apply List.filter_congr
  intro x _
  show (x.my_deck == b && oppMatch x ⟨a, none⟩)
      = (x.my_deck == b && x.opponent_deck == a)
  simp only [oppMatch]

/-- C6: Symmetry.  For two distinct archetypes, the pooled matchup win
count of A against B plus the pooled matchup win count of B against A,
each taken from its own type-blind focus report, equals the number of
records pairing the two. -/
theorem pooled_symmetry (df : List MatchRecord) (a b : String) (hab : a ≠ b) :
    total_focus_wins_vs_opp_deck_agg df ⟨a, none⟩ b
        + total_focus_wins_vs_opp_deck_agg df ⟨b, none⟩ a
      = pair_record_count df a b := by
  have := hab
  have e1 := case1_agg_eq df a b
  have e2 := case2_agg_eq df a b
  have e3 := case1_agg_eq df b a
  have e4 := case2_agg_eq df b a
  have w1 := length_eq_wins_add_losses
    (df.filter fun r => r.my_deck == a && r.opponent_deck == b)
  have w2 := length_eq_wins_add_losses
    (df.filter fun r => r.my_deck == b && r.opponent_deck == a)
  rw [total_focus_wins_vs_opp_deck_agg, total_focus_wins_vs_opp_deck_agg,
    pair_record_count, e1, e2, e3, e4]
  omega

/-- Closed instance of the symmetry theorem on a one-record table. -/
theorem pooled_symmetry_witness :
    ("Alpha" : String) ≠ "Beta" ∧
    total_focus_wins_vs_opp_deck_agg [rAlpha] ⟨"Alpha", none⟩ "Beta"
        + total_focus_wins_vs_opp_deck_agg [rAlpha] ⟨"Beta", none⟩ "Alpha"
      = pair_record_count [rAlpha] "Alpha" "Beta" :=
  ⟨by decide, pooled_symmetry [rAlpha] "Alpha" "Beta" (by decide)⟩

/-- A guarded rate is the no-data marker exactly when its denominator is 0. -/
theorem guarded_rate_none_iff (n : Nat) (q : ℚ) :
    (if 0 < n then some q else none) = none ↔ n = 0 := by
  split
  · simp; omega
  · simp; omega

/-- C3: No-data on empty denominator.  Every rate of the engine is guarded:
the focus report itself is absent exactly when the focus key has no
appearance; each seat-restricted rate, in the focus overall block, in the
overview, in the specific-type matchup rows and in the pooled matchup rows,
is the no-data marker exactly when its seat-restricted game count is zero;
and every emitted table row carries a positive appearance count, so its win
rate divides a positive denominator.  No division is ever evaluated on a
zero denominator. -/
theorem no_data_on_empty_denominator (df : List MatchRecord) (k : FocusKey)
    (name b t : String) :
    (focusOverall df k = none ↔ total_appearances df k = 0) ∧
    (win_rate_focus_first df k = none ↔ total_games_focus_first df k = 0) ∧
    (win_rate_focus_second df k = none ↔ total_games_focus_second df k = 0) ∧
    (win_rate_deck_a_first df name = none ↔ total_games_deck_a_first df name = 0) ∧
    (win_rate_deck_a_second df name = none ↔ total_games_deck_a_second df name = 0) ∧
    (win_rate_fd_first_vs_opp df k b t = none ↔ fd_first_games df k b t = 0) ∧
    (win_rate_fd_second_vs_opp df k b t = none ↔ fd_second_games df k b t = 0) ∧
    (win_rate_fd_first_agg df k b = none ↔ fd_first_games_agg df k b = 0) ∧
    (win_rate_fd_second_agg df k b = none ↔ fd_second_games_agg df k b = 0) ∧
    ((general_performance_rows df).all fun n => 0 < total_appearances_deck_a df n) = true ∧
    ((matchup_rows df k).all fun p => 0 < games_played_count df k p.1 p.2) = true ∧
    ((agg_rows df k).all fun b2 => 0 < total_games_vs_opp_deck_agg df k b2) = true := by
  refine ⟨?_, ?_, ?_, ?_, ?_, ?_, ?_, ?_, ?_, ?_, ?_, ?_⟩
  · rw [focusOverall]
    split
    · simp_all
    · simp_all
  · rw [win_rate_focus_first]; exact guarded_rate_none_iff _ _
  · rw [win_rate_focus_second]; exact guarded_rate_none_iff _ _
  · rw [win_rate_deck_a_first]; exact guarded_rate_none_iff _ _
  · rw [win_rate_deck_a_second]; exact guarded_rate_none_iff _ _
  · rw [win_rate_fd_first_vs_opp]; exact guarded_rate_none_iff _ _
  · rw [win_rate_fd_second_vs_opp]; exact guarded_rate_none_iff _ _
  · rw [win_rate_fd_first_agg]; exact guarded_rate_none_iff _ _
  · rw [win_rate_fd_second_agg]; exact guarded_rate_none_iff _ _
  · rw [List.all_eq_true]
    intro n hn
    exact (List.mem_filter.mp hn).2
  · rw [List.all_eq_true]
    intro p hp
    exact (List.mem_filter.mp hp).2
  · rw [List.all_eq_true]
    intro b2 hb2
    exact (List.mem_filter.mp hb2).2

/-- Members of the deck-name discovery pass the validity filter. -/
theorem mem_get_all_analyzable_valid (df : List MatchRecord) (d : String)
    (hd : d ∈ get_all_analyzable_deck_names df) : validDeckName d = true := by
  rw [get_all_analyzable_deck_names] at hd
  have hd2 := (List.perm_insertionSort stringLe _).mem_iff.mp hd
  have hd3 := (mem_eraseDupsKeepFirst _ d).mp hd2
  exact (List.mem_filter.mp hd3).2

/-- C10: blank and stringified-"nan" names never surface.  Every name from
archetype discovery, every entry of type discovery (including the 全タイプ
placeholder), every row of the overview table, every opponent of the
overview opponent enumeration and every opponent tuple of the focus matchup
enumeration has a non-empty name that is not a casing of "nan"; records
whose deck-name field stringifies to such a value are silently excluded
from these enumerations rather than rejected. -/
theorem blank_nan_names_excluded (df : List MatchRecord) (name : String) (k : FocusKey) :
    ((get_all_analyzable_deck_names df).all validDeckName) = true ∧
    ((get_all_types_for_archetype df name).all validDeckName) = true ∧
    ((general_performance_rows df).all validDeckName) = true ∧
    ((unique_opponents_faced_by_deck_a df name).all validDeckName) = true ∧
    ((all_faced_opponents_tuples df k).all fun p => validDeckName p.1) = true := by
  refine ⟨?_, ?_, ?_, ?_, ?_⟩
  · rw [List.all_eq_true]
    intro d hd
    exact mem_get_all_analyzable_valid df d hd
  · rw [get_all_types_for_archetype]
    split
    · decide
    · rw [List.all_eq_true]
      intro tt htt
      rcases List.mem_cons.mp htt with rfl | htt2
      · decide
      · have h2 := (List.perm_insertionSort stringLe _).mem_iff.mp htt2
        have h3 := (mem_eraseDupsKeepFirst _ tt).mp h2
        exact (List.mem_filter.mp h3).2
  · rw [List.all_eq_true]
    intro d hd
    exact mem_get_all_analyzable_valid df d ((List.mem_filter.mp hd).1)
  · rw [List.all_eq_true]
    intro o ho
    have h2 := (mem_eraseDupsKeepFirst _ o).mp ho
    have h3 := (List.mem_filter.mp h2).2
    simp only [Bool.and_eq_true, Bool.not_eq_true'] at h3
    have hne : (o == "") = false := h3.1.1.1
    have hnan : lowerIsNan (pyStrip o) = false := h3.2
    rw [validDeckName, hne]
    have : lowerIsNan o = false := by
      cases hlo : lowerIsNan o
      · rfl
      · rw [pyStrip_of_lowerIsNan o hlo] at hnan
        rw [hlo] at hnan
        cases hnan
    rw [this]
    rfl
  · rw [List.all_eq_true]
    intro p hp
    have h2 := (List.perm_insertionSort tupleLe _).mem_iff.mp hp
    have h3 := (List.mem_filter.mp h2).2
    simp only [Bool.and_eq_true, Bool.not_eq_true'] at h3
    rw [validDeckName, h3.1, h3.2]
    rfl

/-- A specific-type my-side restriction is the type refinement of the
pooled my-side restriction. -/
theorem case1_games_eq_filter (df : List MatchRecord) (k : FocusKey) (b t : String) :
    case1_games df k b t
      = (case1_agg_games_total df k b).filter fun r => r.opponent_deck_type == t := by
  rw [case1_games, case1_agg_games_total, List.filter_filter]
  apply List.filter_congr
  intro x _
  exact Bool.and_comm _ _

/-- A specific-type opponent-side restriction is the type refinement of the
pooled opponent-side restriction. -/
theorem case2_games_eq_filter (df : List MatchRecord) (k : FocusKey) (b t : String) :
    case2_games df k b t
      = (case2_agg_games_total df k b).filter fun r => r.my_deck_type == t := by
  rw [case2_games, case2_agg_games_total, List.filter_filter]
  apply List.filter_congr
  intro x _
  exact Bool.and_comm _ _

/-- Every my-side game against a valid opponent name places its
(deck, type) tuple in the faced-opponents enumeration. -/
theorem tuple_mem_all_faced_of_case1 (df : List MatchRecord) (k : FocusKey) (b : String)
    (r : MatchRecord) (hr : r ∈ case1_agg_games_total df k b)
    (hval : (!(b == "") && !(lowerIsNan b)) = true) :
    (b, r.opponent_deck_type) ∈ all_faced_opponents_tuples df k := by
  rw [all_faced_opponents_tuples, (List.perm_insertionSort tupleLe _).mem_iff,
    List.mem_filter]
  rcases List.mem_filter.mp hr with ⟨hmem, hopp⟩
  have hob : r.opponent_deck = b := by simpa using hopp
  constructor
  · rw [opponents_set, mem_eraseDupsKeepFirst, List.mem_append]
    exact Or.inl (List.mem_map.mpr ⟨r, hmem, by rw [hob]⟩)
  · simpa using hval

/-- Every opponent-side game against a valid opponent name places its
(deck, type) tuple in the faced-opponents enumeration. -/
theorem tuple_mem_all_faced_of_case2 (df : List MatchRecord) (k : FocusKey) (b : String)
    (r : MatchRecord) (hr : r ∈ case2_agg_games_total df k b)
    (hval : (!(b == "") && !(lowerIsNan b)) = true) :
    (b, r.my_deck_type) ∈ all_faced_opponents_tuples df k := by
  rw [all_faced_opponents_tuples, (List.perm_insertionSort tupleLe _).mem_iff,
    List.mem_filter]
  rcases List.mem_filter.mp hr with ⟨hmem, hmy⟩
  have hmb : r.my_deck = b := by simpa using hmy
  constructor
  · rw [opponents_set, mem_eraseDupsKeepFirst, List.mem_append]
    exact Or.inr (List.mem_map.mpr ⟨r, hmem, by rw [hmb]⟩)
  · simpa using hval

/-- Every enumerated faced tuple has at least one game, so the
games_played_count > 0 guard never drops a row. -/
theorem all_faced_pos_games (df : List MatchRecord) (k : FocusKey) :
    ∀ p ∈ all_faced_opponents_tuples df k, 0 < games_played_count df k p.1 p.2 := by
  intro p hp
  have h2 := (List.perm_insertionSort tupleLe _).mem_iff.mp hp
  have h3 := (List.mem_filter.mp h2).1
  rw [opponents_set, mem_eraseDupsKeepFirst, List.mem_append] at h3
  rcases h3 with h4 | h4
  · rcases List.mem_map.mp h4 with ⟨r, hr, hre⟩
    have hmem : r ∈ case1_games df k p.1 p.2 := by
      rw [case1_games, List.mem_filter]
      refine ⟨hr, ?_⟩
      rw [← hre]
      simp
    have := List.length_pos_of_mem hmem
    rw [games_played_count]
    omega
  · rcases List.mem_map.mp h4 with ⟨r, hr, hre⟩
    have hmem : r ∈ case2_games df k p.1 p.2 := by
      rw [case2_games, List.mem_filter]
      refine ⟨hr, ?_⟩
      rw [← hre]
      simp
    have := List.length_pos_of_mem hmem
    rw [games_played_count]
    omega

/-- The specific-type tier keeps every enumerated tuple. -/
theorem matchup_rows_eq_all_faced (df : List MatchRecord) (k : FocusKey) :
    matchup_rows df k = all_faced_opponents_tuples df k := by
  rw [matchup_rows]
  apply List.filter_eq_self.mpr
  intro p hp
  exact decide_eq_true (all_faced_pos_games df k p hp)

/-- The faced-opponents enumeration carries no duplicate tuple. -/
theorem nodup_all_faced (df : List MatchRecord) (k : FocusKey) :
    (all_faced_opponents_tuples df k).Nodup :=
  (List.perm_insertionSort tupleLe _).symm.nodup
    ((nodup_eraseDupsKeepFirst _).filter _)

/-- An opponent name appearing in the matchup table passes the validity
filter of the enumeration. -/
theorem valid_of_mem_rows (df : List MatchRecord) (k : FocusKey) (b : String)
    (hb : b ∈ (matchup_rows df k).map fun p => p.1) :
    (!(b == "") && !(lowerIsNan b)) = true := by
  rcases List.mem_map.mp hb with ⟨p, hp, rfl⟩
  rw [matchup_rows_eq_all_faced] at hp
  have h2 := (List.perm_insertionSort tupleLe _).mem_iff.mp hp
  exact (List.mem_filter.mp h2).2

/-- C7: pooled equals the sum of the specific rows.  For every opponent
archetype appearing in the focus matchup table, the appearance count of
its pooled (全タイプ) row equals the sum of the appearance counts of its
specific-type rows in the same table. -/
theorem pooled_eq_sum_of_specific (df : List MatchRecord) (k : FocusKey) (b : String)
    (hb : b ∈ (matchup_rows df k).map fun p => p.1) :
    total_games_vs_opp_deck_agg df k b
      = ((types_of_opponent df k b).map fun t => games_played_count df k b t).sum := by
  have hval := valid_of_mem_rows df k b hb
  have hrows_nodup : (matchup_rows df k).Nodup := by
    rw [matchup_rows_eq_all_faced]
    exact nodup_all_faced df k
  have hnodup : (types_of_opponent df k b).Nodup := by
    rw [types_of_opponent]
    apply nodup_map_snd_of_fst_eq _ b (hrows_nodup.filter _)
    intro p hp
    have := (List.mem_filter.mp hp).2
    simpa using this
  have htuple_mem : ∀ p, p ∈ all_faced_opponents_tuples df k → p.1 = b →
      p.2 ∈ types_of_opponent df k b := by
    intro p hp hp1
    rw [types_of_opponent]
    apply List.mem_map.mpr
    refine ⟨p, ?_, rfl⟩
    rw [List.mem_filter, matchup_rows_eq_all_faced]
    exact ⟨hp, by simp [hp1]⟩
  have hmem1 : ∀ r ∈ case1_agg_games_total df k b,
      r.opponent_deck_type ∈ types_of_opponent df k b := by
    intro r hr
    exact htuple_mem (b, r.opponent_deck_type)
      (tuple_mem_all_faced_of_case1 df k b r hr hval) rfl
  have hmem2 : ∀ r ∈ case2_agg_games_total df k b,
      r.my_deck_type ∈ types_of_opponent df k b := by
    intro r hr
    exact htuple_mem (b, r.my_deck_type)
      (tuple_mem_all_faced_of_case2 df k b r hr hval) rfl
  have h1 := length_eq_sum_filter_by_key (case1_agg_games_total df k b)
    (fun r => r.opponent_deck_type) (types_of_opponent df k b) hnodup hmem1
  have h2 := length_eq_sum_filter_by_key (case2_agg_games_total df k b)
    (fun r => r.my_deck_type) (types_of_opponent df k b) hnodup hmem2
  rw [total_games_vs_opp_deck_agg, h1, h2, ← sum_map_add_nat]
  apply congrArg List.sum
  apply List.map_congr_left
  intro t _
  rw [games_played_count, case1_games_eq_filter, case2_games_eq_filter]

/-- Closed instance of the pooled-sum theorem on the two-record scenario. -/
theorem pooled_eq_sum_of_specific_witness :
    "Beta" ∈ ((matchup_rows dfC5 kAlphaAll).map fun p => p.1) ∧
    total_games_vs_opp_deck_agg dfC5 kAlphaAll "Beta"
      = ((types_of_opponent dfC5 kAlphaAll "Beta").map
          fun t => games_played_count dfC5 kAlphaAll "Beta" t).sum :=
  ⟨by decide, pooled_eq_sum_of_specific dfC5 kAlphaAll "Beta" (by decide)⟩

/-- C9 counterexample: two table rows with identical field values, both
memo-tagged and both matching the focus key, survive the identity-respecting
union described by the spec but collapse to one entry under the value-based
drop_duplicates of the source, so the produced list differs from the
claimed one. -/
theorem memo_identity_dedup_counterexample :
    spec_memo_display dfMemoDup kA = [rMemoA, rMemoA] ∧
    df_memo_display dfMemoDup kA = [rMemoA] ∧
    ¬ df_memo_display dfMemoDup kA = spec_memo_display dfMemoDup kA := by decide

/-- C9 amended: the memo-tagged record list holds exactly the records of
the table that match the focus key on either side and carry a memo that is
non-blank after stripping and not a stringified "nan" — deduplicated by
full record value equality (pandas drop_duplicates), so identical-valued
rows collapse into one entry — and it is sorted by date descending with
undated records after all dated ones. -/
theorem memo_records_amended (df : List MatchRecord) (k : FocusKey) :
    (∀ r : MatchRecord, r ∈ df_memo_display df k ↔
      r ∈ df ∧ (selfMatch r k || oppMatch r k) = true ∧ memoKeep r = true) ∧
    (df_memo_display df k).Nodup ∧
    List.Sorted dateDescLe (df_memo_display df k) := by
  refine ⟨?_, ?_, ?_⟩
  · intro r
    rw [df_memo_display, (List.perm_insertionSort dateDescLe _).mem_iff,
      all_memo_games, mem_eraseDupsKeepFirst, List.mem_append,
      memos_when_my_deck, memos_when_opponent_deck]
    simp only [List.mem_filter, focus_as_my_deck_games, focus_as_opponent_deck_games,
      Bool.or_eq_true]
    constructor
    · rintro (⟨⟨hdf, hs⟩, hm⟩ | ⟨⟨hdf, ho⟩, hm⟩)
      · exact ⟨hdf, Or.inl hs, hm⟩
      · exact ⟨hdf, Or.inr ho, hm⟩
    · rintro ⟨hdf, hs | ho, hm⟩
      · exact Or.inl ⟨⟨hdf, hs⟩, hm⟩
      · exact Or.inr ⟨⟨hdf, ho⟩, hm⟩
  · exact (List.perm_insertionSort dateDescLe _).symm.nodup
      (nodup_eraseDupsKeepFirst _)
  · exact List.sorted_insertionSort dateDescLe _

/-- The my-side games of one overview pairing, normalized to a single
filter of the table. -/
theorem a_vs_opp_my_games_eq (df : List MatchRecord) (name b : String) :
    a_vs_opp_my_games df name b
      = df.filter fun r => r.my_deck == name && r.opponent_deck == b := by
  rw [a_vs_opp_my_games, games_involving_deck_a, List.filter_filter]
  apply List.filter_congr
  intro x _
  cases h1 : x.my_deck == name <;> cases h2 : x.opponent_deck == b <;>
    cases h3 : x.opponent_deck == name <;> simp [h1, h2, h3]

/-- The opponent-side games of one overview pairing, normalized to a
single filter of the table. -/
theorem a_vs_opp_opponent_games_eq (df : List MatchRecord) (name b : String) :
    a_vs_opp_opponent_games df name b
      = df.filter fun r => r.my_deck == b && r.opponent_deck == name := by
  rw [a_vs_opp_opponent_games, games_involving_deck_a, List.filter_filter]
  apply List.filter_congr
  intro x _
  cases h1 : x.my_deck == name <;> cases h2 : x.my_deck == b <;>
    cases h3 : x.opponent_deck == name <;> simp [h1, h2, h3]

/-- For distinct archetypes the two orientations of a pairing are disjoint,
so the pairing count splits over them. -/
theorem pair_games_length_split (df : List MatchRecord) (name b : String) (hne : b ≠ name) :
    (pair_games df name b).length
      = (df.filter fun r => r.my_deck == name && r.opponent_deck == b).length
        + (df.filter fun r => r.my_deck == b && r.opponent_deck == name).length := by
  rw [pair_games]
  apply length_filter_or_disjoint
  intro x _
  rintro ⟨h1, h2⟩
  simp only [Bool.and_eq_true, beq_iff_eq] at h1 h2
  exact hne (h2.1.symm.trans h1.1)

/-- The overview per-pairing win count equals the spec-side pairing wins. -/
theorem wins_vs_specific_eq_pair (df : List MatchRecord) (name b : String) :
    total_wins_for_a_vs_specific_opponent df name b = pair_wins_for df name b := by
  rw [total_wins_for_a_vs_specific_opponent, pair_wins_for, a_vs_opp_my_games_eq,
    a_vs_opp_opponent_games_eq]

/-- The overview per-pairing game count equals the spec-side pairing size. -/
theorem games_vs_specific_eq_pair (df : List MatchRecord) (name b : String)
    (hne : b ≠ name) :
    total_games_vs_specific_opponent df name b = (pair_games df name b).length := by
  rw [total_games_vs_specific_opponent, a_vs_opp_my_games_eq, a_vs_opp_opponent_games_eq,
    pair_games_length_split df name b hne]

/-- The opponent enumeration of the overview lists exactly the spec-side
distinct opposing archetypes: valid names different from the focus
archetype that share at least one record with it. -/
theorem mem_unique_opponents_iff (df : List MatchRecord) (a b : String) :
    b ∈ unique_opponents_faced_by_deck_a df a ↔ b ∈ spec_opponents df a := by
  rw [unique_opponents_faced_by_deck_a, mem_eraseDupsKeepFirst, List.mem_filter,
    spec_opponents, Finset.mem_filter]
  constructor
  · rintro ⟨h3, hval⟩
    rcases List.mem_filterMap.mp h3 with ⟨r, hr, hfr⟩
    rcases List.mem_filter.mp hr with ⟨hrdf, _⟩
    rw [opponent_for_this_game] at hfr
    by_cases hmy : (r.my_deck == a) = true
    · rw [if_pos hmy] at hfr
      have hob : r.opponent_deck = b := Option.some.inj hfr
      have hma : r.my_deck = a := by simpa using hmy
      refine ⟨?_, hval, ?_⟩
      · rw [deckNamesFinset, List.mem_toFinset, List.mem_append]
        exact Or.inr (List.mem_map.mpr ⟨r, hrdf, hob⟩)
      · have hrp : r ∈ pair_games df a b := by
          rw [pair_games, List.mem_filter]
          exact ⟨hrdf, by simp [hma, hob]⟩
        exact List.length_pos_of_mem hrp
    · rw [if_neg hmy] at hfr
      by_cases hop : (r.opponent_deck == a) = true
      · rw [if_pos hop] at hfr
        have hmb : r.my_deck = b := Option.some.inj hfr
        have hoa : r.opponent_deck = a := by simpa using hop
        refine ⟨?_, hval, ?_⟩
        · rw [deckNamesFinset, List.mem_toFinset, List.mem_append]
          exact Or.inl (List.mem_map.mpr ⟨r, hrdf, hmb⟩)
        · have hrp : r ∈ pair_games df a b := by
            rw [pair_games, List.mem_filter]
            exact ⟨hrdf, by simp [hmb, hoa]⟩
          exact List.length_pos_of_mem hrp
      · rw [if_neg hop] at hfr
        cases hfr
  · rintro ⟨_, hval, hpos⟩
    have hbne : b ≠ a := by
      simp only [validOverviewOpponent, Bool.and_eq_true, Bool.not_eq_true'] at hval
      simpa using hval.1.1.2
    have hne : pair_games df a b ≠ [] := by
      intro h
      rw [h] at hpos
      simp at hpos
    rcases List.exists_mem_of_ne_nil _ hne with ⟨r, hr⟩
    rcases List.mem_filter.mp hr with ⟨hrdf, hpred⟩
    have hcases : (r.my_deck = a ∧ r.opponent_deck = b) ∨
        (r.my_deck = b ∧ r.opponent_deck = a) := by
      simpa using hpred
    refine ⟨?_, hval⟩
    apply List.mem_filterMap.mpr
    refine ⟨r, ?_, ?_⟩
    · rw [games_involving_deck_a, List.mem_filter]
      refine ⟨hrdf, ?_⟩
      rcases hcases with ⟨h1, _⟩ | ⟨_, h2⟩
      · simp [h1]
      · simp [h2]
    · rcases hcases with ⟨h1, h2⟩ | ⟨h1, h2⟩
      · rw [opponent_for_this_game, if_pos (by simp [h1]), h2]
      · have hmyfalse : ¬((r.my_deck == a) = true) := by
          simp [h1]
          exact hbne
        rw [opponent_for_this_game, if_neg hmyfalse, if_pos (by simp [h2]), h1]

/-- The per-opponent rate list of the overview is the list of spec-side
per-pairing win rates over the enumerated opponents: the guard of the
source never drops an enumerated opponent, because each was faced at least
once. -/
theorem matchup_win_rates_eq_map (df : List MatchRecord) (a : String) :
    matchup_win_rates_for_deck_a df a
      = (unique_opponents_faced_by_deck_a df a).map fun b => pair_win_rate df a b := by
  rw [matchup_win_rates_for_deck_a]
  apply filterMap_eq_map_of_some
  intro b hb
  have hspec := (mem_unique_opponents_iff df a b).mp hb
  rw [spec_opponents, Finset.mem_filter] at hspec
  rcases hspec with ⟨_, hval, hpos⟩
  have hbne : b ≠ a := by
    simp only [validOverviewOpponent, Bool.and_eq_true, Bool.not_eq_true'] at hval
    simpa using hval.1.1.2
  have hg := games_vs_specific_eq_pair df a b hbne
  have hw := wins_vs_specific_eq_pair df a b
  rw [if_pos]
  · rw [pair_win_rate, hg, hw]
  · rw [hg]
    exact hpos

/-- C4: the average matchup win rate of the overview equals the spec-side
value: the unweighted arithmetic mean, over every distinct opposing
archetype faced at least once, of the focus archetype's per-pairing win
rate, and the no-data marker when there is no such opponent. -/
theorem avg_matchup_wr_eq_spec (df : List MatchRecord) (a : String) :
    avg_matchup_wr_deck_a df a = spec_avg_matchup_win_rate df a := by
  have hL_nodup : (unique_opponents_faced_by_deck_a df a).Nodup :=
    nodup_eraseDupsKeepFirst _
  have hS : spec_opponents df a = (unique_opponents_faced_by_deck_a df a).toFinset := by
    apply Finset.ext
    intro b
    rw [List.mem_toFinset]
    exact (mem_unique_opponents_iff df a b).symm
  rw [avg_matchup_wr_deck_a, spec_avg_matchup_win_rate, matchup_win_rates_eq_map, hS,
    List.sum_toFinset _ hL_nodup, List.toFinset_card_of_nodup hL_nodup]
  simp only [List.isEmpty_iff, List.map_eq_nil_iff, List.toFinset_eq_empty_iff,
    List.length_map]

end WarRecord
